import Mathlib

/-!
Shallow embedding of the Teensy 3.5 ECU core (trigger decoder, RPM
calculator, angle/multi-stage schedulers, fuel and closed-loop control,
engine state machine) and proofs checking the natural-language
specification against it.

Conventions of the embedding:
* C `float` values are modelled as `ℚ` (exact arithmetic).
* C unsigned integers are modelled as `ℕ`; where the C code can wrap
  (uint32 subtraction/addition/multiplication of times, counter
  increments) the wrap is made explicit with `% 2^32` (helper `u32`)
  or `% 2^16` / `% 2^8`.
* C `(int16_t)` truncation is modelled by `wrap16 : ℤ → ℤ`.
* Function-pointer callbacks are modelled as `Option ℕ` identifiers
  (`none` = NULL pointer); invoking a callback is modelled as an output
  event value rather than a side effect.
* Struct fields that no embedded function reads or writes are omitted.
-/

/-- Reduce modulo 2^32, the wrap of C uint32 arithmetic. -/
def u32 (x : ℕ) : ℕ := x % 4294967296

/-- C uint32 subtraction a - b (wrapping), landing in [0, 2^32). -/
def u32sub (a b : ℕ) : ℕ := (((a : ℤ) - (b : ℤ)) % 4294967296).toNat

/-- Truncation of an integer to C int16_t (two's complement). -/
def wrap16 (x : ℤ) : ℤ := (x + 32768) % 65536 - 32768

/-! ## Trigger decoder (src/firmware/src/hal/trigger_decoder_k64.c) -/

/-- State of `trigger_decoder_t`.  Callback pointers are modelled by the
flags `has_sync_callback` / `has_tooth_callback` (pointer ≠ NULL). -/
structure trigger_decoder_t where
  total_teeth : ℕ
  missing_teeth : ℕ
  tooth_count : ℕ
  prev_tooth_time : ℕ
  prev_tooth_period : ℕ
  current_tooth_period : ℕ
  sync_locked : Bool
  sync_count : ℕ
  sync_loss_count : ℕ
  tooth_event_counter : ℕ
  sync_point_tooth : ℕ
  sync_ratio_from : ℚ
  sync_ratio_to : ℚ
  last_sync_time : ℕ
  has_sync_callback : Bool
  has_tooth_callback : Bool
  deriving DecidableEq

/-- Observable callback activity of one `trigger_decoder_process_tooth`
call: whether the sync callback fired, and the tooth index passed to the
tooth callback (if it fired). -/
structure trigger_out_t where
  fired_sync : Bool
  tooth_cb : Option ℕ
  deriving DecidableEq

/-- Missing-tooth gap detection step of `trigger_decoder_process_tooth`
(trigger_decoder_k64.c lines 92-123).  Returns the updated decoder and
whether the sync callback fired. -/
def trigger_gap_check (d : trigger_decoder_t) (timestamp tooth_period : ℕ) :
    trigger_decoder_t × Bool :=
  if 0 < d.prev_tooth_period ∧
      d.sync_ratio_from ≤ (tooth_period : ℚ) / (d.prev_tooth_period : ℚ) ∧
      (tooth_period : ℚ) / (d.prev_tooth_period : ℚ) ≤ d.sync_ratio_to then
    let d1 := { d with tooth_count := d.sync_point_tooth, last_sync_time := timestamp }
    if d.sync_locked then
      ({ d1 with sync_count := u32 (d1.sync_count + 1) }, false)
    else
      ({ d1 with sync_locked := true, sync_count := u32 (d1.sync_count + 1) },
       d.has_sync_callback)
  else
    (d, false)

/-- Tooth-count validation step of `trigger_decoder_process_tooth`
(trigger_decoder_k64.c lines 125-141): lose sync on overflow, otherwise
fire the tooth callback and increment the count (uint8). -/
def trigger_count_check (d : trigger_decoder_t) : trigger_decoder_t × Option ℕ :=
  if d.sync_locked then
    if d.total_teeth ≤ d.tooth_count then
      ({ d with sync_locked := false, sync_loss_count := u32 (d.sync_loss_count + 1),
                tooth_count := 0 }, none)
    else
      ({ d with tooth_count := (d.tooth_count + 1) % 256 },
       if d.has_tooth_callback then some d.tooth_count else none)
  else
    (d, none)

/-- Embedding of `trigger_decoder_process_tooth` (trigger_decoder_k64.c
lines 66-146).  MIN_TOOTH_PERIOD_US = 100. -/
def trigger_decoder_process_tooth (d : trigger_decoder_t) (timestamp : ℕ) :
    trigger_decoder_t × trigger_out_t :=
  let d0 := { d with tooth_event_counter := u32 (d.tooth_event_counter + 1) }
  if d0.prev_tooth_time = 0 then
    ({ d0 with prev_tooth_time := timestamp }, ⟨false, none⟩)
  else
    let tooth_period := u32sub timestamp d0.prev_tooth_time
    if tooth_period < 100 then
      (d0, ⟨false, none⟩)
    else
      let d1 := { d0 with current_tooth_period := tooth_period }
      let g := trigger_gap_check d1 timestamp tooth_period
      let v := trigger_count_check g.1
      ({ v.1 with prev_tooth_period := tooth_period, prev_tooth_time := timestamp },
       ⟨g.2, v.2⟩)

/-! ## Closed-loop O2 control (src/firmware/src/controllers/engine_control.c) -/

/-- State of `closed_loop_fuel_t` (engine_control.h). -/
structure closed_loop_fuel_t where
  proportional_gain : ℚ
  integral_gain : ℚ
  integral_error : ℚ
  correction : ℚ
  closed_loop_active : Bool
  deriving DecidableEq

/-- Embedding of `update_closed_loop_fuel` (engine_control.c lines
486-523): PI controller with anti-windup; integral clamped to ±20,
correction clamped to [0.8, 1.2]. -/
def update_closed_loop_fuel (cl : closed_loop_fuel_t) (target_afr actual_afr dt : ℚ) :
    closed_loop_fuel_t :=
  if cl.closed_loop_active = false then cl
  else
    let error := target_afr - actual_afr
    let p_term := cl.proportional_gain * error
    let ie0 := cl.integral_error + error * dt
    let ie := if 20 < ie0 then 20 else if ie0 < -20 then -20 else ie0
    let i_term := cl.integral_gain * ie
    let corr0 := 1 + (p_term + i_term) / 100
    let corr := if 6/5 < corr0 then 6/5 else if corr0 < 4/5 then 4/5 else corr0
    { cl with integral_error := ie, correction := corr }

/-- Closed-loop state as `ecu_init` leaves it (engine_control.c lines
120-125). -/
def init_closed_loop : closed_loop_fuel_t :=
  { proportional_gain := 1/10, integral_gain := 1/100, integral_error := 0,
    correction := 1, closed_loop_active := false }

/-- One control cycle as driven by `ecu_update_sensors` (engine_control.c
lines 168-178): when the warm-and-running condition holds the loop is
activated and updated, otherwise it is deactivated and the integral is
reset.  The Bool records the value of that condition, the triple the
arguments passed to `update_closed_loop_fuel`. -/
def closed_loop_cycle (cl : closed_loop_fuel_t) (warm_running : Bool) (target actual dt : ℚ) :
    closed_loop_fuel_t :=
  if warm_running then
    update_closed_loop_fuel { cl with closed_loop_active := true } target actual dt
  else
    { cl with closed_loop_active := false, integral_error := 0 }

/-- Fold of `closed_loop_cycle` over a list of control cycles. -/
def run_closed_loop (cl : closed_loop_fuel_t) :
    List (Bool × ℚ × ℚ × ℚ) → closed_loop_fuel_t
  | [] => cl
  | s :: rest => run_closed_loop (closed_loop_cycle cl s.1 s.2.1 s.2.2.1 s.2.2.2) rest

/-- The claimed closed-loop invariant: integral error in [-20, 20],
correction in [0.8, 1.2]. -/
def closed_loop_inv (cl : closed_loop_fuel_t) : Prop :=
  -20 ≤ cl.integral_error ∧ cl.integral_error ≤ 20 ∧
  4/5 ≤ cl.correction ∧ cl.correction ≤ 6/5

instance (cl : closed_loop_fuel_t) : Decidable (closed_loop_inv cl) := by
  unfold closed_loop_inv; infer_instance

/-! ## Wall wetting (src/firmware/src/controllers/engine_control.c) -/

/-- State of `wall_wetting_t`.  The .c implementation reads and writes an
`alpha` member, so it is included here (the header's struct omits it). -/
structure wall_wetting_t where
  tau : ℚ
  alpha : ℚ
  beta : ℚ
  fuel_film_mass : ℚ
  prev_map_kpa : ℚ
  deriving DecidableEq

/-- Embedding of `update_wall_wetting` (engine_control.c lines 434-484):
X-tau model.  Coefficients below 0.01 are zeroed; the compensated mass
uses the (1-beta) division only when beta < 0.99; the commanded mass and
the stored film mass are clamped at 0.  Returns (commanded mass, new
state). -/
def update_wall_wetting (ww : wall_wetting_t) (base_fuel_mg map_kpa dt : ℚ) :
    ℚ × wall_wetting_t :=
  let alpha := if ww.alpha < 1/100 then 0 else ww.alpha
  let beta := if ww.beta < 1/100 then 0 else ww.beta
  let fuel_film := ww.fuel_film_mass
  let m_cmd :=
    if beta < 99/100 then (base_fuel_mg - (1 - alpha) * fuel_film) / (1 - beta)
    else base_fuel_mg
  let fuel_film_next := alpha * fuel_film + beta * m_cmd
  let m_out := if m_cmd < 0 then 0 else m_cmd
  let film_out := if fuel_film_next < 0 then 0 else fuel_film_next
  (m_out, { ww with fuel_film_mass := film_out, prev_map_kpa := map_kpa })

/-- Iterating `update_wall_wetting` with a constant desired mass. -/
def wwIter (ww0 : wall_wetting_t) (d map_kpa dt : ℚ) : ℕ → wall_wetting_t
  | 0 => ww0
  | n + 1 => (update_wall_wetting (wwIter ww0 d map_kpa dt n) d map_kpa dt).2

/-- Commanded mass returned at step n+1 of the constant-input iteration. -/
def wwCmd (ww0 : wall_wetting_t) (d map_kpa dt : ℚ) (n : ℕ) : ℚ :=
  (update_wall_wetting (wwIter ww0 d map_kpa dt n) d map_kpa dt).1

/-! ## Table lookups and fuel pulse (src/firmware/src/controllers/engine_control.c) -/

/-- Embedding of `lookup_table_2d` (engine_control.c lines 333-368):
normalize to index space 0-15, clamp, bilinear interpolation.  The C
`(int)` casts act on clamped non-negative values, so they are floors. -/
def lookup_table_2d (table : Fin 16 → Fin 16 → ℚ) (x y x_min x_max y_min y_max : ℚ) : ℚ :=
  let x_norm0 := ((x - x_min) / (x_max - x_min)) * 15
  let y_norm0 := ((y - y_min) / (y_max - y_min)) * 15
  let x_norm := if x_norm0 < 0 then 0 else if 15 < x_norm0 then 15 else x_norm0
  let y_norm := if y_norm0 < 0 then 0 else if 15 < y_norm0 then 15 else y_norm0
  let x_idx : ℕ := min 14 (Int.toNat ⌊x_norm⌋)
  let y_idx : ℕ := min 14 (Int.toNat ⌊y_norm⌋)
  let x_frac := x_norm - (x_idx : ℚ)
  let y_frac := y_norm - (y_idx : ℚ)
  let v00 := table ⟨y_idx, by omega⟩ ⟨x_idx, by omega⟩
  let v10 := table ⟨y_idx, by omega⟩ ⟨x_idx + 1, by omega⟩
  let v01 := table ⟨y_idx + 1, by omega⟩ ⟨x_idx, by omega⟩
  let v11 := table ⟨y_idx + 1, by omega⟩ ⟨x_idx + 1, by omega⟩
  let v0 := v00 + (v10 - v00) * x_frac
  let v1 := v01 + (v11 - v01) * x_frac
  v0 + (v1 - v0) * y_frac

/-- The 8-point voltage/latency table `injector_latency_table_t`. -/
structure injector_latency_table_t where
  voltage : Fin 8 → ℚ
  latency_us : Fin 8 → ℚ

/-- Embedding of `calculate_injector_latency` (engine_control.c lines
374-402): find the first bracketing voltage pair among indices 0..6 and
interpolate linearly; clamp to the table ends outside the range. -/
def calculate_injector_latency (table : injector_latency_table_t) (battery_voltage : ℚ) : ℚ :=
  match (List.finRange 7).find?
      (fun i => decide (table.voltage i.castSucc ≤ battery_voltage ∧
                        battery_voltage ≤ table.voltage i.succ)) with
  | some i =>
      let v0 := table.voltage i.castSucc
      let v1 := table.voltage i.succ
      let l0 := table.latency_us i.castSucc
      let l1 := table.latency_us i.succ
      l0 + (l1 - l0) * ((battery_voltage - v0) / (v1 - v0))
  | none =>
      if battery_voltage < table.voltage 0 then table.latency_us 0
      else table.latency_us 7

/-- Engine configuration fields read by the embedded functions
(`engine_config_t`, engine_control.h). -/
structure engine_config_t where
  num_cylinders : ℕ
  displacement_cc : ℕ

/-- Sensor fields read by the embedded functions (`sensor_data_t`,
engine_control.h). -/
structure sensor_data_t where
  tps_percent : ℚ
  map_kpa : ℚ
  clt_celsius : ℚ
  iat_celsius : ℚ
  afr : ℚ
  battery_voltage : ℚ
  rpm : ℕ
  engine_running : Bool
  sync_locked : Bool
  closed_loop : closed_loop_fuel_t

/-- Fuel-control fields read by the embedded functions
(`fuel_control_t`, engine_control.h). -/
structure fuel_control_t where
  ve_table : Fin 16 → Fin 16 → ℚ
  afr_target : ℚ
  injector_flow_cc : ℚ
  latency_table : injector_latency_table_t
  wall_wetting : wall_wetting_t
  clt_correction : ℚ
  iat_correction : ℚ
  accel_enrichment : ℚ

/-- ECU state fields read by the embedded functions (`ecu_state_t`). -/
structure ecu_state_t where
  config : engine_config_t
  sensors : sensor_data_t
  fuel : fuel_control_t

/-- Embedding of `calculate_fuel_pulse` (engine_control.c lines 181-240).
Returns the pulse width in µs (the C uint32 cast of a float clamped to
[500, 20000]) together with the wall-wetting state the call stores back.
When the engine is not reported running the function returns 0 without
touching the wall-wetting state. -/
def calculate_fuel_pulse (ecu : ecu_state_t) : ℕ × wall_wetting_t :=
  if ecu.sensors.engine_running then
    let displacement_liters := (ecu.config.displacement_cc : ℚ) / 1000
    let rpm := (ecu.sensors.rpm : ℚ)
    let map_kpa := ecu.sensors.map_kpa
    let ve := lookup_table_2d ecu.fuel.ve_table rpm map_kpa 500 7000 20 100
    let air_mass_g := (map_kpa * displacement_liters * ve) /
                      (287/1000 * (ecu.sensors.iat_celsius + 5463/20))
    let fuel_mass_g := air_mass_g / ecu.fuel.afr_target
    let fuel_mass_mg := fuel_mass_g * 1000
    let ww := update_wall_wetting ecu.fuel.wall_wetting fuel_mass_mg map_kpa 10
    let compensated_fuel_g := ww.1 / 1000
    let fuel_cc := compensated_fuel_g / (81/100)
    let pulse0 := (fuel_cc / ecu.fuel.injector_flow_cc) * 60000000
    let pulse1 := pulse0 * ecu.fuel.clt_correction * ecu.fuel.iat_correction +
                  ecu.fuel.accel_enrichment
    let pulse2 := if ecu.sensors.closed_loop.closed_loop_active then
                    pulse1 * ecu.sensors.closed_loop.correction
                  else pulse1
    let latency := calculate_injector_latency ecu.fuel.latency_table
                     ecu.sensors.battery_voltage
    let pulse3 := pulse2 + latency
    let pulse4 := if pulse3 < 500 then 500 else pulse3
    let pulse5 := if 20000 < pulse4 then 20000 else pulse4
    (Int.toNat ⌊pulse5⌋, ww.2)
  else
    (0, ecu.fuel.wall_wetting)

/-! ## RPM calculator (src/firmware/src/controllers/rpm_calculator.c and
rpm_calculator_phase3.c) -/

/-- State of `rpm_calculator_t` (rpm_calculator.h). -/
structure rpm_calculator_t where
  rpm : ℕ
  instant_rpm : ℕ
  filter_coefficient : ℚ
  last_update_time : ℕ
  timeout_threshold_us : ℕ
  stopped : Bool
  initialized : Bool
  revolution_period : ℕ
  last_revolution_time : ℕ
  revolution_counter : ℕ
  cranking : Bool
  cranking_rpm_threshold : ℕ
  cranking_filter_coeff : ℚ
  deriving DecidableEq

/-- The EMA filter of rpm_calculator.c lines 73-81 / 118-124: seed with
the instant value when the stored rpm is 0, otherwise blend with the
given coefficient and truncate the float result to uint16. -/
def rpm_apply_filter (old_rpm instant : ℕ) (coeff : ℚ) : ℕ :=
  if old_rpm = 0 then instant
  else Int.toNat ⌊(instant : ℚ) * coeff + (old_rpm : ℚ) * (1 - coeff)⌋ % 65536

/-- Embedding of `rpm_calculator_on_tooth` (rpm_calculator.c lines
49-86).  MIN_RPM_PERIOD_US = 1000; instant rpm saturates at 65535; the
filter always uses `filter_coefficient`. -/
def rpm_calculator_on_tooth (c : rpm_calculator_t)
    (period_us teeth_per_rev current_time : ℕ) : rpm_calculator_t :=
  if period_us < 1000 ∨ teeth_per_rev = 0 then c
  else
    let i0 := 60000000 / (period_us * teeth_per_rev)
    let instant := if 65535 < i0 then 65535 else i0
    { c with instant_rpm := instant,
             rpm := rpm_apply_filter c.rpm instant c.filter_coefficient,
             last_update_time := current_time,
             stopped := false }

/-- Embedding of `rpm_calculator_on_revolution` (rpm_calculator.c lines
94-129). -/
def rpm_calculator_on_revolution (c : rpm_calculator_t)
    (revolution_period_us current_time : ℕ) : rpm_calculator_t :=
  if revolution_period_us < 1000 then c
  else
    let i0 := 60000000 / revolution_period_us
    let instant := if 65535 < i0 then 65535 else i0
    { c with revolution_period := revolution_period_us,
             last_revolution_time := current_time,
             revolution_counter := u32 (c.revolution_counter + 1),
             instant_rpm := instant,
             rpm := rpm_apply_filter c.rpm instant c.filter_coefficient,
             last_update_time := current_time,
             stopped := false }

/-- Embedding of `rpm_calculator_check_timeout` (rpm_calculator.c lines
250-268): force rpm to 0 and mark stopped when no update arrived within
the timeout. -/
def rpm_calculator_check_timeout (c : rpm_calculator_t) (current_time : ℕ) :
    rpm_calculator_t :=
  if 0 < c.last_update_time then
    if c.timeout_threshold_us < u32sub current_time c.last_update_time then
      { c with rpm := 0, instant_rpm := 0, stopped := true }
    else c
  else c

/-- Embedding of `rpm_calculator_update_cranking_mode`
(rpm_calculator_phase3.c lines 64-76). -/
def rpm_calculator_update_cranking_mode (c : rpm_calculator_t) : rpm_calculator_t :=
  if c.rpm < c.cranking_rpm_threshold then { c with cranking := true }
  else { c with cranking := false }

/-- Embedding of `rpm_calculator_get_active_filter_coeff`
(rpm_calculator_phase3.c lines 83-94): the faster coefficient while
cranking. -/
def rpm_calculator_get_active_filter_coeff (c : rpm_calculator_t) : ℚ :=
  if c.cranking then c.cranking_filter_coeff else c.filter_coefficient

/-! ## Hardware timer scheduler (src/firmware/src/hal/hardware_scheduler_k64.c) -/

/-- One `hw_scheduled_event_t` slot.  The callback pointer is always
`hw_event_callback`; `context` records the angle-scheduler slot index it
points at.  `channel` is the FTM channel in the search order of
`find_free_ftm_channel` (FTM1 ch0-7 then FTM2 ch0-7, indices 0-15). -/
structure hw_scheduled_event_t where
  active : Bool
  scheduled_time_us : ℕ
  context : ℕ
  channel : ℕ
  deriving DecidableEq

/-- State of `hw_scheduler_t` together with the file-static
`ftm_channel_allocated` pool it draws timer channels from. -/
structure hw_scheduler_t where
  events : Fin 8 → hw_scheduled_event_t
  num_active : ℕ
  channels : Fin 16 → Bool

/-- Embedding of `hw_scheduler_schedule` (hardware_scheduler_k64.c lines
118-164): take the first free event slot and the first free FTM channel;
fail (changing nothing) when either pool is exhausted. -/
def hw_scheduler_schedule (hw : hw_scheduler_t) (absolute_time_us context : ℕ) :
    Option (Fin 8) × hw_scheduler_t :=
  match (List.finRange 8).find? (fun i => ! (hw.events i).active) with
  | none => (none, hw)
  | some i =>
    match (List.finRange 16).find? (fun c => ! hw.channels c) with
    | none => (none, hw)
    | some ch =>
      (some i,
       { hw with
         events := Function.update hw.events i
           { active := true, scheduled_time_us := absolute_time_us,
             context := context, channel := ch.val },
         channels := Function.update hw.channels ch true,
         num_active := (hw.num_active + 1) % 256 })

/-! ## Angle-based event scheduler (src/firmware/src/controllers/event_scheduler.c) -/

/-- One `scheduled_event_t` slot (event_scheduler.h plus the
`hw_event_id` member used by event_scheduler.c). -/
structure scheduled_event_t where
  trigger_angle : ℕ
  cylinder : ℕ
  action_id : Option ℕ
  active : Bool
  scheduled_time_us : ℕ
  angle_delta : ℕ
  hw_event_id : ℤ
  deriving DecidableEq

/-- State of `event_scheduler_t` (event_scheduler.h). -/
structure event_scheduler_t where
  events : Fin 16 → scheduled_event_t
  num_active_events : ℕ
  current_angle : ℕ
  rpm : ℕ
  us_per_degree : ℕ
  events_scheduled : ℕ
  events_fired : ℕ
  events_missed : ℕ

/-- The angle delta of event_scheduler.c lines 120-123 / 157-161: the
int16 difference target - current, wrapped up by one cycle when
negative, then cast to uint32. -/
def angle_delta_u32 (target current : ℕ) : ℕ :=
  let d0 := wrap16 ((target : ℤ) - (current : ℤ))
  let d1 := if d0 < 0 then d0 + 720 else d0
  (d1 % 4294967296).toNat

/-- Embedding of `scheduler_angle_to_time` (event_scheduler.c lines
112-129): microseconds until the target angle. -/
def scheduler_angle_to_time (sched : event_scheduler_t) (target_angle : ℕ) : ℕ :=
  u32 (angle_delta_u32 target_angle sched.current_angle * sched.us_per_degree)

/-- Embedding of `scheduler_update_angle` (event_scheduler.c lines
72-107): store the normalized angle and rpm, derive us_per_degree
(60,000,000 / (rpm*360), or the saturating sentinel 0xFFFFFFFF below
MIN_RPM_FOR_SCHEDULING = 100), and recompute the absolute time of every
active event.  The C loop reads only current_angle / us_per_degree,
already updated, so the per-slot recomputation is order-independent. -/
def scheduler_update_angle (sched : event_scheduler_t)
    (angle rpm current_time_us : ℕ) : event_scheduler_t :=
  let sched1 := { sched with
    current_angle := angle % 720,
    rpm := rpm,
    us_per_degree := if 100 ≤ rpm then 60000000 / (rpm * 360) else 4294967295 }
  { sched1 with
    events := fun i =>
      if (sched1.events i).active then
        { sched1.events i with
          scheduled_time_us :=
            u32 (current_time_us +
              scheduler_angle_to_time sched1 (sched1.events i).trigger_angle) }
      else sched1.events i }

/-- Embedding of `scheduler_add_event` (event_scheduler.c lines 134-193):
normalize the angle, reserve the first free slot, compute the absolute
fire time, and hand it to the hardware scheduler; when the hardware
scheduler has no free resource the slot reservation is rolled back
(active set back to false) and the call fails. -/
def scheduler_add_event (sched : event_scheduler_t) (hw : hw_scheduler_t)
    (angle cylinder : ℕ) (action_id : Option ℕ) (current_time_us : ℕ) :
    Bool × event_scheduler_t × hw_scheduler_t :=
  if action_id = none then (false, sched, hw)
  else
    let angle1 := angle % 720
    match (List.finRange 16).find? (fun i => ! (sched.events i).active) with
    | none => (false, sched, hw)
    | some i =>
      let delta := angle_delta_u32 angle1 sched.current_angle
      let time_until_event := u32 (delta * sched.us_per_degree)
      let fire_time_us := u32 (current_time_us + time_until_event)
      let ev : scheduled_event_t :=
        { trigger_angle := angle1, cylinder := cylinder, action_id := action_id,
          active := true, scheduled_time_us := fire_time_us,
          angle_delta := delta, hw_event_id := -1 }
      let hwr := hw_scheduler_schedule hw fire_time_us i.val
      match hwr.1 with
      | some hid =>
        (true,
         { sched with
           events := Function.update sched.events i { ev with hw_event_id := hid.val },
           num_active_events := (sched.num_active_events + 1) % 256,
           events_scheduled := u32 (sched.events_scheduled + 1) },
         hwr.2)
      | none =>
        (false,
         { sched with events := Function.update sched.events i { ev with active := false } },
         hwr.2)

/-! ## Multi-stage scheduler (src/firmware/src/controllers/multi_stage_scheduler.c) -/

/-- The `multistage_type_t` tag. -/
inductive multistage_type_t where
  | injection
  | ignition
  | custom
  deriving DecidableEq

/-- One `multistage_event_t` slot (multi_stage_scheduler.h). -/
structure multistage_event_t where
  cylinder : ℕ
  mstype : multistage_type_t
  start_angle : ℕ
  duration_us : ℕ
  start_action_id : Option ℕ
  end_action_id : Option ℕ
  active : Bool
  start_fired : Bool
  end_fired : Bool
  start_time_us : ℕ
  end_time_us : ℕ
  deriving DecidableEq

/-- State of `multistage_scheduler_t`; the angle scheduler and the
hardware scheduler it delegates to are passed alongside. -/
structure multistage_scheduler_t where
  events : Fin 8 → multistage_event_t
  num_active : ℕ
  events_started : ℕ
  events_completed : ℕ
  events_cancelled : ℕ

/-- Embedding of `multistage_schedule_injection`
(multi_stage_scheduler.c lines 56-144).  Returns the event id (or -1)
and the new multi-stage, angle-scheduler and hardware states.  Faithful
to the C control flow: the slot is populated and marked active before
the rpm check; on a failed underlying `scheduler_add_event` only the
multi-stage slot's active flag is cleared. -/
def multistage_schedule_injection (ms : multistage_scheduler_t)
    (es : event_scheduler_t) (hw : hw_scheduler_t)
    (cylinder start_angle duration_us : ℕ)
    (start_action_id end_action_id : Option ℕ) (rpm current_time_us : ℕ) :
    ℤ × multistage_scheduler_t × event_scheduler_t × hw_scheduler_t :=
  if start_action_id = none ∨ end_action_id = none then (-1, ms, es, hw)
  else
    match (List.finRange 8).find? (fun i => ! (ms.events i).active) with
    | none => (-1, ms, es, hw)
    | some eid =>
      let ev0 := { ms.events eid with
        cylinder := cylinder, mstype := multistage_type_t.injection,
        start_angle := start_angle, duration_us := duration_us,
        start_action_id := start_action_id, end_action_id := end_action_id,
        active := true, start_fired := false, end_fired := false }
      let ms1 := { ms with events := Function.update ms.events eid ev0 }
      if rpm < 100 then (-1, ms1, es, hw)
      else
        let us_per_degree := 60000000 / (rpm * 360)
        let start_time_us := current_time_us
        let end_time_us := u32 (start_time_us + duration_us)
        let ev1 := { ev0 with start_time_us := start_time_us, end_time_us := end_time_us }
        let ms2 := { ms1 with events := Function.update ms1.events eid ev1 }
        let r1 := scheduler_add_event es hw start_angle cylinder start_action_id
                    current_time_us
        let evOff := { ev1 with active := false }
        if r1.1 = false then
          (-1, { ms2 with events := Function.update ms2.events eid evOff }, r1.2.1, r1.2.2)
        else
          let duration_degrees := duration_us / us_per_degree
          let end_angle := (start_angle + duration_degrees) % 720
          let r2 := scheduler_add_event r1.2.1 r1.2.2 end_angle cylinder
                      end_action_id current_time_us
          if r2.1 = false then
            (-1, { ms2 with events := Function.update ms2.events eid evOff }, r2.2.1, r2.2.2)
          else
            ((eid.val : ℤ),
             { ms2 with num_active := (ms2.num_active + 1) % 256,
                        events_started := u32 (ms2.events_started + 1) },
             r2.2.1, r2.2.2)

/-- Embedding of `multistage_schedule_ignition`
(multi_stage_scheduler.c lines 149-213): dwell-start event at
dwell_angle, fire event at fire_angle; same non-rollback of the first
event when the second fails. -/
def multistage_schedule_ignition (ms : multistage_scheduler_t)
    (es : event_scheduler_t) (hw : hw_scheduler_t)
    (cylinder dwell_angle fire_angle : ℕ)
    (start_action_id end_action_id : Option ℕ) (rpm current_time_us : ℕ) :
    ℤ × multistage_scheduler_t × event_scheduler_t × hw_scheduler_t :=
  if start_action_id = none ∨ end_action_id = none then (-1, ms, es, hw)
  else
    match (List.finRange 8).find? (fun i => ! (ms.events i).active) with
    | none => (-1, ms, es, hw)
    | some eid =>
      let ev0 := { ms.events eid with
        cylinder := cylinder, mstype := multistage_type_t.ignition,
        start_angle := dwell_angle,
        start_action_id := start_action_id, end_action_id := end_action_id,
        active := true, start_fired := false, end_fired := false }
      let ms1 := { ms with events := Function.update ms.events eid ev0 }
      let evOff := { ev0 with active := false }
      let r1 := scheduler_add_event es hw dwell_angle cylinder start_action_id
                  current_time_us
      if r1.1 = false then
        (-1, { ms1 with events := Function.update ms1.events eid evOff }, r1.2.1, r1.2.2)
      else
        let r2 := scheduler_add_event r1.2.1 r1.2.2 fire_angle cylinder
                    end_action_id current_time_us
        if r2.1 = false then
          (-1, { ms1 with events := Function.update ms1.events eid evOff }, r2.2.1, r2.2.2)
        else
          ((eid.val : ℤ),
           { ms1 with num_active := (ms1.num_active + 1) % 256,
                      events_started := u32 (ms1.events_started + 1) },
           r2.2.1, r2.2.2)

/-! ## Engine state machine (src/firmware/src/controllers/engine_controller.c) -/

/-- The `engine_state_t` enumeration (engine_controller.h). -/
inductive engine_state_t where
  | stopped
  | cranking
  | running
  | warmup
  | idle
  | decel_fuel_cut
  | limp_mode
  deriving DecidableEq

/-- Controller fields read by `engine_controller_update_state`:
configuration thresholds and the sensor readings (engine_controller.h;
clt_celsius is int16_t, tps_percent uint16_t). -/
structure engine_controller_t where
  state : engine_state_t
  cranking_rpm : ℕ
  idle_rpm_target : ℕ
  clt_valid : Bool
  clt_celsius : ℤ
  tps_percent : ℕ
  last_update_time_us : ℕ
  state_entry_time : ℕ
  deriving DecidableEq

/-- Embedding of `engine_controller_update_state` (engine_controller.c
lines 117-176).  The idle comparison casts rpm and the idle target to
int16_t before subtracting. -/
def engine_controller_update_state (c : engine_controller_t) (rpm : ℕ) :
    engine_controller_t :=
  let prev := c.state
  let ns :=
    if rpm = 0 then engine_state_t.stopped
    else if rpm < c.cranking_rpm then engine_state_t.cranking
    else if prev = engine_state_t.cranking ∨ prev = engine_state_t.stopped then
      if c.clt_valid = true ∧ c.clt_celsius < 60 then engine_state_t.warmup
      else engine_state_t.running
    else if prev = engine_state_t.warmup then
      if c.clt_valid = true ∧ 80 ≤ c.clt_celsius then engine_state_t.running
      else engine_state_t.warmup
    else
      let rpm_diff := |wrap16 (rpm : ℤ) - wrap16 (c.idle_rpm_target : ℤ)|
      if rpm_diff < 200 ∧ c.tps_percent < 5 then engine_state_t.idle
      else if c.tps_percent = 0 ∧ c.idle_rpm_target + 500 < rpm then
        engine_state_t.decel_fuel_cut
      else engine_state_t.running
  if ns ≠ prev then { c with state := ns, state_entry_time := c.last_update_time_us }
  else c

/-! ## Concrete states used to instantiate the theorems -/

/-- A 36-1 decoder that has seen a normal tooth (period 1000 µs) and is
about to see the missing-tooth gap. -/
def trig_gap_decoder : trigger_decoder_t :=
  { total_teeth := 36, missing_teeth := 1, tooth_count := 0,
    prev_tooth_time := 1000, prev_tooth_period := 1000,
    current_tooth_period := 1000, sync_locked := false, sync_count := 0,
    sync_loss_count := 0, tooth_event_counter := 2, sync_point_tooth := 0,
    sync_ratio_from := 3/2, sync_ratio_to := 3, last_sync_time := 0,
    has_sync_callback := true, has_tooth_callback := true }

/-- An ECU state whose engine-running flag is false. -/
def ecu_stopped : ecu_state_t :=
  { config := { num_cylinders := 4, displacement_cc := 2000 },
    sensors := { tps_percent := 0, map_kpa := 100, clt_celsius := 20,
                 iat_celsius := 20, afr := 147/10, battery_voltage := 14,
                 rpm := 0, engine_running := false, sync_locked := false,
                 closed_loop := init_closed_loop },
    fuel := { ve_table := fun _ _ => 4/5, afr_target := 131/10,
              injector_flow_cc := 300,
              latency_table := { voltage := fun _ => 12, latency_us := fun _ => 800 },
              wall_wetting := { tau := 100, alpha := 19/20, beta := 1/2,
                                fuel_film_mass := 0, prev_map_kpa := 100 },
              clt_correction := 1, iat_correction := 1, accel_enrichment := 0 } }

/-- The same ECU with the engine reported running. -/
def ecu_running : ecu_state_t :=
  { ecu_stopped with sensors := { ecu_stopped.sensors with engine_running := true, rpm := 3000 } }

/-- An inactive single-shot event slot. -/
def ev_slot_free : scheduled_event_t :=
  { trigger_angle := 0, cylinder := 0, action_id := none, active := false,
    scheduled_time_us := 0, angle_delta := 0, hw_event_id := -1 }

/-- An empty angle scheduler running at 1000 rpm (us_per_degree 166). -/
def es_empty : event_scheduler_t :=
  { events := fun _ => ev_slot_free, num_active_events := 0, current_angle := 0,
    rpm := 1000, us_per_degree := 166, events_scheduled := 0,
    events_fired := 0, events_missed := 0 }

/-- An angle scheduler whose 16 slots are all occupied. -/
def es_full : event_scheduler_t :=
  { es_empty with
    events := fun _ => { ev_slot_free with active := true, action_id := some 1 },
    num_active_events := 16 }

/-- An angle scheduler with one active event at trigger angle 100. -/
def es_one_event : event_scheduler_t :=
  { es_empty with
    events := Function.update (fun _ => ev_slot_free) 0
      { ev_slot_free with active := true, trigger_angle := 100, action_id := some 1 },
    num_active_events := 1 }

/-- A hardware scheduler with all event slots and channels free. -/
def hw_empty : hw_scheduler_t :=
  { events := fun _ => { active := false, scheduled_time_us := 0, context := 0,
                         channel := 0 },
    num_active := 0, channels := fun _ => false }

/-- A hardware scheduler with exactly one free FTM channel left. -/
def hw_one_channel : hw_scheduler_t :=
  { hw_empty with channels := fun c => decide (0 < c.val) }

/-- An inactive multi-stage slot. -/
def ms_slot_free : multistage_event_t :=
  { cylinder := 0, mstype := multistage_type_t.custom, start_angle := 0,
    duration_us := 0, start_action_id := none, end_action_id := none,
    active := false, start_fired := false, end_fired := false,
    start_time_us := 0, end_time_us := 0 }

/-- An empty multi-stage scheduler. -/
def ms_empty : multistage_scheduler_t :=
  { events := fun _ => ms_slot_free, num_active := 0, events_started := 0,
    events_completed := 0, events_cancelled := 0 }

/-- An rpm calculator below the cranking threshold (rpm 200 < 400), with
the normal coefficient 0.05 and the faster cranking coefficient 0.2. -/
def rpm_calc_cranking : rpm_calculator_t :=
  { rpm := 200, instant_rpm := 200, filter_coefficient := 1/20,
    last_update_time := 1000, timeout_threshold_us := 1000000,
    stopped := false, initialized := true, revolution_period := 0,
    last_revolution_time := 0, revolution_counter := 0, cranking := true,
    cranking_rpm_threshold := 400, cranking_filter_coeff := 1/5 }

/-- An rpm calculator whose filtered rpm is 0 (e.g. after a timeout). -/
def rpm_calc_zeroed : rpm_calculator_t :=
  { rpm_calc_cranking with
    rpm := 0, instant_rpm := 0, stopped := true, last_update_time := 1 }

/-- A warmed-up-but-invalid-CLT controller in the Warmup state. -/
def ctrl_warmup_invalid_clt : engine_controller_t :=
  { state := engine_state_t.warmup, cranking_rpm := 400, idle_rpm_target := 800,
    clt_valid := false, clt_celsius := 90, tps_percent := 50,
    last_update_time_us := 0, state_entry_time := 0 }

/-- A controller in the Warmup state with a valid CLT reading of 85 °C. -/
def ctrl_warmup_valid_clt : engine_controller_t :=
  { ctrl_warmup_invalid_clt with clt_valid := true, clt_celsius := 85 }

/-- The wall-wetting state of the convergence counterexample: alpha 0,
beta 0.9, so the affine film map has slope (0-0.9)/(1-0.9) = -9 and the
iteration oscillates. -/
def ww_oscillating : wall_wetting_t :=
  { tau := 100, alpha := 0, beta := 9/10, fuel_film_mass := 0, prev_map_kpa := 100 }

/-- The default wall-wetting state from `ecu_init` (alpha 0.95, beta 0.5). -/
def ww_default : wall_wetting_t :=
  { tau := 100, alpha := 19/20, beta := 1/2, fuel_film_mass := 0, prev_map_kpa := 100 }

/-! ## Theorems -/

theorem update_closed_loop_fuel_inv (cl : closed_loop_fuel_t) (t a dt : ℚ)
    (h : closed_loop_inv cl) : closed_loop_inv (update_closed_loop_fuel cl t a dt) := by
  unfold update_closed_loop_fuel
  split
  · exact h
  · dsimp only [closed_loop_inv]
    refine ⟨?_, ?_, ?_, ?_⟩ <;> split_ifs <;> linarith

theorem closed_loop_cycle_inv (cl : closed_loop_fuel_t) (b : Bool) (t a dt : ℚ)
    (h : closed_loop_inv cl) : closed_loop_inv (closed_loop_cycle cl b t a dt) := by
  unfold closed_loop_cycle
  split
  · exact update_closed_loop_fuel_inv _ t a dt
      ⟨h.1, h.2.1, h.2.2.1, h.2.2.2⟩
  · exact ⟨by norm_num, by norm_num, h.2.2.1, h.2.2.2⟩

theorem run_closed_loop_inv (steps : List (Bool × ℚ × ℚ × ℚ)) :
    ∀ cl : closed_loop_fuel_t, closed_loop_inv cl →
      closed_loop_inv (run_closed_loop cl steps) := by
  induction steps with
  | nil => intro cl h; exact h
  | cons s rest ih =>
      intro cl h
      exact ih _ (closed_loop_cycle_inv cl s.1 s.2.1 s.2.2.1 s.2.2.2 h)

/-- C5: starting from the state `ecu_init` sets up, every sequence of
closed-loop control cycles (arbitrary activation, AFR error magnitude
and duration) keeps `integral_error` within [-20, 20] and `correction`
within [0.8, 1.2]; both hold at initialization as well. -/
theorem closed_loop_always_bounded :
    closed_loop_inv init_closed_loop ∧
    ∀ steps : List (Bool × ℚ × ℚ × ℚ),
      closed_loop_inv (run_closed_loop init_closed_loop steps) := by
  constructor
  · exact ⟨by norm_num [init_closed_loop, closed_loop_inv],
           by norm_num [init_closed_loop, closed_loop_inv],
           by norm_num [init_closed_loop, closed_loop_inv],
           by norm_num [init_closed_loop, closed_loop_inv]⟩
  · intro steps
    exact run_closed_loop_inv steps _
      ⟨by norm_num [init_closed_loop], by norm_num [init_closed_loop],
       by norm_num [init_closed_loop], by norm_num [init_closed_loop]⟩

/-- C9 counterexample: a controller in the Warmup state with rpm 1000
(at or above its cranking threshold 400) and a coolant reading of 90 °C
(≥ 80) stays in Warmup because the reading is flagged invalid, so the
claimed transition-iff-coolant-at-least-80 is false as stated. -/
theorem warmup_transition_needs_valid_clt :
    ctrl_warmup_invalid_clt.state = engine_state_t.warmup ∧
    ctrl_warmup_invalid_clt.cranking_rpm ≤ 1000 ∧
    80 ≤ ctrl_warmup_invalid_clt.clt_celsius ∧
    (engine_controller_update_state ctrl_warmup_invalid_clt 1000).state ≠
      engine_state_t.running := by
  refine ⟨rfl, by decide, by decide, ?_⟩
  decide

/-- C9 (amended): for a controller in the Warmup state with nonzero rpm
at or above the cranking threshold, `engine_controller_update_state`
moves to Running exactly when the coolant reading is valid and at least
80 °C, and otherwise leaves the state at Warmup. -/
theorem warmup_to_running_iff_valid_and_warm (c : engine_controller_t) (rpm : ℕ)
    (h1 : c.state = engine_state_t.warmup) (h2 : c.cranking_rpm ≤ rpm)
    (h3 : 0 < rpm) :
    ((engine_controller_update_state c rpm).state = engine_state_t.running ↔
      (c.clt_valid = true ∧ 80 ≤ c.clt_celsius)) ∧
    (¬(c.clt_valid = true ∧ 80 ≤ c.clt_celsius) →
      (engine_controller_update_state c rpm).state = engine_state_t.warmup) := by
  have hz : ¬ rpm = 0 := by omega
  have hcr : ¬ rpm < c.cranking_rpm := by omega
  by_cases hc : c.clt_valid = true ∧ 80 ≤ c.clt_celsius
  · constructor
    · simp [engine_controller_update_state, hz, hcr, h1, hc]
    · intro hn; exact absurd hc hn
  · constructor
    · simp [engine_controller_update_state, hz, hcr, h1, hc]
    · intro _; simp [engine_controller_update_state, hz, hcr, h1, hc]

/-- C9 witness: the amended theorem applied to a concrete Warmup
controller with a valid 85 °C coolant reading at rpm 1000. -/
theorem warmup_to_running_iff_valid_and_warm_witness :
    ((engine_controller_update_state ctrl_warmup_valid_clt 1000).state =
        engine_state_t.running ↔
      (ctrl_warmup_valid_clt.clt_valid = true ∧
        80 ≤ ctrl_warmup_valid_clt.clt_celsius)) ∧
    (¬(ctrl_warmup_valid_clt.clt_valid = true ∧
        80 ≤ ctrl_warmup_valid_clt.clt_celsius) →
      (engine_controller_update_state ctrl_warmup_valid_clt 1000).state =
        engine_state_t.warmup) :=
  warmup_to_running_iff_valid_and_warm ctrl_warmup_valid_clt 1000 rfl
    (by decide) (by decide)

/-- C10: whenever the stored filtered rpm is 0 when
`rpm_calculator_on_tooth` or `rpm_calculator_on_revolution` runs — in
particular right after `rpm_calculator_check_timeout` has forced it to
0 — the exponential filter is bypassed and the filtered rpm is set
directly to the freshly computed instantaneous rpm. -/
theorem rpm_zero_seeds_filter (c : rpm_calculator_t)
    (p teeth rp now t2 : ℕ)
    (h0 : c.rpm = 0) (h1 : 1000 ≤ p) (h2 : teeth ≠ 0) (h3 : 1000 ≤ rp)
    (h4 : 0 < c.last_update_time)
    (h5 : c.timeout_threshold_us < u32sub t2 c.last_update_time) :
    (rpm_calculator_on_tooth c p teeth now).rpm =
      (rpm_calculator_on_tooth c p teeth now).instant_rpm ∧
    (rpm_calculator_on_revolution c rp now).rpm =
      (rpm_calculator_on_revolution c rp now).instant_rpm ∧
    (rpm_calculator_on_tooth (rpm_calculator_check_timeout c t2) p teeth now).rpm =
      (rpm_calculator_on_tooth (rpm_calculator_check_timeout c t2) p teeth now).instant_rpm := by
  have hg : ¬ (p < 1000 ∨ teeth = 0) := by omega
  have hr : ¬ rp < 1000 := by omega
  refine ⟨?_, ?_, ?_⟩
  · simp [rpm_calculator_on_tooth, hg, rpm_apply_filter, h0]
  · simp [rpm_calculator_on_revolution, hr, rpm_apply_filter, h0]
  · have ht : (rpm_calculator_check_timeout c t2).rpm = 0 := by
      simp [rpm_calculator_check_timeout, h4, h5]
    simp [rpm_calculator_on_tooth, hg, rpm_apply_filter, ht]

/-- C10 witness: the theorem applied to a concrete zeroed calculator, a
1500 µs tooth period with 36 teeth, a 60000 µs revolution period, and a
timeout check at time 2000000. -/
theorem rpm_zero_seeds_filter_witness :
    (rpm_calculator_on_tooth rpm_calc_zeroed 1500 36 5000).rpm =
      (rpm_calculator_on_tooth rpm_calc_zeroed 1500 36 5000).instant_rpm ∧
    (rpm_calculator_on_revolution rpm_calc_zeroed 60000 5000).rpm =
      (rpm_calculator_on_revolution rpm_calc_zeroed 60000 5000).instant_rpm ∧
    (rpm_calculator_on_tooth (rpm_calculator_check_timeout rpm_calc_zeroed 2000000) 1500 36 5000).rpm =
      (rpm_calculator_on_tooth (rpm_calculator_check_timeout rpm_calc_zeroed 2000000) 1500 36 5000).instant_rpm :=
  rpm_zero_seeds_filter rpm_calc_zeroed 1500 36 60000 5000 2000000
    rfl (by decide) (by decide) (by decide) (by decide) (by decide)

/-- C4: with filtered rpm 200 below the cranking threshold 400,
`rpm_calculator_on_tooth` still filters with the normal
`filter_coefficient` 1/20 (giving 210 from instant rpm 400), not with
the faster coefficient 1/5 that `rpm_calculator_get_active_filter_coeff`
selects during cranking (which would give 240); the phase-3 cranking
substitution is never invoked by the tooth path. -/
theorem on_tooth_ignores_cranking_coeff :
    rpm_calc_cranking.rpm < rpm_calc_cranking.cranking_rpm_threshold ∧
    rpm_calculator_get_active_filter_coeff rpm_calc_cranking = 1/5 ∧
    rpm_calc_cranking.filter_coefficient = 1/20 ∧
    (rpm_calculator_on_tooth rpm_calc_cranking 150000 1 5000).rpm = 210 ∧
    rpm_apply_filter 200 400 (1/20) = 210 ∧
    rpm_apply_filter 200 400 (1/5) = 240 := by
  refine ⟨by decide, rfl, rfl, ?_, ?_, ?_⟩ <;>
    · norm_num [rpm_calculator_on_tooth, rpm_calc_cranking, rpm_apply_filter]
      decide

theorem hw_scheduler_schedule_none (hw : hw_scheduler_t) (t ctx : ℕ)
    (h : (hw_scheduler_schedule hw t ctx).1 = none) :
    (hw_scheduler_schedule hw t ctx).2 = hw := by
  unfold hw_scheduler_schedule at h ⊢
  cases h8 : (List.finRange 8).find? (fun i => ! (hw.events i).active) with
  | none => simp [h8]
  | some i =>
    cases h16 : (List.finRange 16).find? (fun c => ! hw.channels c) with
    | none => simp [h8, h16]
    | some ch => simp [h8, h16] at h

/-- C7: whenever `scheduler_add_event` fails (returns false) — NULL
action, all 16 slots occupied, or the hardware-timer port reporting no
free resource — the scheduler state is preserved: every slot's active
flag, `num_active_events` and `events_scheduled` keep their prior
values, and the hardware scheduler is unchanged. -/
theorem scheduler_add_event_fail_unchanged (sched : event_scheduler_t)
    (hw : hw_scheduler_t) (angle cylinder : ℕ) (action_id : Option ℕ) (now : ℕ)
    (h : (scheduler_add_event sched hw angle cylinder action_id now).1 = false) :
    (∀ i, ((scheduler_add_event sched hw angle cylinder action_id now).2.1.events i).active =
      (sched.events i).active) ∧
    (scheduler_add_event sched hw angle cylinder action_id now).2.1.num_active_events =
      sched.num_active_events ∧
    (scheduler_add_event sched hw angle cylinder action_id now).2.1.events_scheduled =
      sched.events_scheduled ∧
    (scheduler_add_event sched hw angle cylinder action_id now).2.2 = hw := by
  by_cases hact : action_id = none
  · simp [scheduler_add_event, hact]
  · cases hfind : (List.finRange 16).find? (fun i => ! (sched.events i).active) with
    | none => simp [scheduler_add_event, hact, hfind]
    | some i =>
      have hia : (sched.events i).active = false := by
        have := List.find?_some hfind
        simpa using this
      cases hhw : (hw_scheduler_schedule hw
          (u32 (now + u32 (angle_delta_u32 (angle % 720) sched.current_angle *
            sched.us_per_degree))) i.val).1 with
      | some hid =>
        simp [scheduler_add_event, hact, hfind, hhw] at h
      | none =>
        refine ⟨fun j => ?_, ?_, ?_, ?_⟩
        · rcases eq_or_ne j i with rfl | hne
          · simp [scheduler_add_event, hact, hfind, hhw, hia]
          · simp [scheduler_add_event, hact, hfind, hhw, Function.update_noteq hne]
        · simp [scheduler_add_event, hact, hfind, hhw]
        · simp [scheduler_add_event, hact, hfind, hhw]
        · have h2 := hw_scheduler_schedule_none _ _ _ hhw
          simp [scheduler_add_event, hact, hfind, hhw, h2]

/-- C7 witness: the failure-preservation theorem applied to a scheduler
whose 16 slots are all occupied. -/
theorem scheduler_add_event_fail_unchanged_witness :
    (∀ i, ((scheduler_add_event es_full hw_empty 100 0 (some 1) 0).2.1.events i).active =
      (es_full.events i).active) ∧
    (scheduler_add_event es_full hw_empty 100 0 (some 1) 0).2.1.num_active_events =
      es_full.num_active_events ∧
    (scheduler_add_event es_full hw_empty 100 0 (some 1) 0).2.1.events_scheduled =
      es_full.events_scheduled ∧
    (scheduler_add_event es_full hw_empty 100 0 (some 1) 0).2.2 = hw_empty :=
  scheduler_add_event_fail_unchanged es_full hw_empty 100 0 (some 1) 0 (by decide)

theorem angle_delta_u32_mod (target current : ℕ) (ht : target < 720)
    (hc : current < 720) :
    angle_delta_u32 target current = (target + 720 - current) % 720 := by
  unfold angle_delta_u32 wrap16
  dsimp only
  split <;> omega

/-- C8: `scheduler_update_angle` stores `angle % 720` as the current
angle, sets `us_per_degree` to 60,000,000 / (rpm*360) at or above the
minimum scheduling rpm of 100 and to the saturating sentinel 0xFFFFFFFF
below it, and recomputes the absolute fire time of every still-active
event as now plus its angle delta (mod 720 from the new angle) times
the new us_per_degree, in uint32 arithmetic.  Active slots carry
normalized trigger angles (< 720), as `scheduler_add_event` establishes. -/
theorem scheduler_update_angle_spec (sched : event_scheduler_t)
    (angle rpm now : ℕ)
    (hb : ∀ i, (sched.events i).active = true → (sched.events i).trigger_angle < 720) :
    (scheduler_update_angle sched angle rpm now).current_angle = angle % 720 ∧
    (scheduler_update_angle sched angle rpm now).us_per_degree =
      (if 100 ≤ rpm then 60000000 / (rpm * 360) else 4294967295) ∧
    ∀ i, (sched.events i).active = true →
      ((scheduler_update_angle sched angle rpm now).events i).scheduled_time_us =
        u32 (now + u32 ((((sched.events i).trigger_angle + 720 - angle % 720) % 720) *
          (scheduler_update_angle sched angle rpm now).us_per_degree)) := by
  refine ⟨rfl, rfl, fun i hi => ?_⟩
  have hlt : angle % 720 < 720 := Nat.mod_lt _ (by norm_num)
  simp only [scheduler_update_angle, scheduler_angle_to_time, hi, if_true]
  rw [angle_delta_u32_mod _ _ (hb i hi) hlt]

/-- C8 witness: the theorem applied to a scheduler with one active event
at trigger angle 100 while updating to angle 30 at 6000 rpm. -/
theorem scheduler_update_angle_spec_witness :
    (scheduler_update_angle es_one_event 30 6000 1000).current_angle = 30 % 720 ∧
    (scheduler_update_angle es_one_event 30 6000 1000).us_per_degree =
      (if 100 ≤ 6000 then 60000000 / (6000 * 360) else 4294967295) ∧
    ∀ i, (es_one_event.events i).active = true →
      ((scheduler_update_angle es_one_event 30 6000 1000).events i).scheduled_time_us =
        u32 (1000 + u32 ((((es_one_event.events i).trigger_angle + 720 - 30 % 720) % 720) *
          (scheduler_update_angle es_one_event 30 6000 1000).us_per_degree)) :=
  scheduler_update_angle_spec es_one_event 30 6000 1000 (by decide)

/-- C3: with an empty multi-stage scheduler, an empty angle scheduler
and a hardware port holding exactly one free timer channel,
`multistage_schedule_injection` schedules its start event, fails on the
end event, returns -1 and releases the multi-stage slot — but the start
event is left active in the angle scheduler (slot 0 active,
num_active_events 1), so the claimed full rollback does not happen; the
source comments this with: in production code, would cancel start
event. -/
theorem multistage_injection_leaks_start_event :
    (multistage_schedule_injection ms_empty es_empty hw_one_channel
      0 100 2000 (some 1) (some 2) 1000 5000).1 = -1 ∧
    ((multistage_schedule_injection ms_empty es_empty hw_one_channel
      0 100 2000 (some 1) (some 2) 1000 5000).2.1.events 0).active = false ∧
    ((multistage_schedule_injection ms_empty es_empty hw_one_channel
      0 100 2000 (some 1) (some 2) 1000 5000).2.2.1.events 0).active = true ∧
    (multistage_schedule_injection ms_empty es_empty hw_one_channel
      0 100 2000 (some 1) (some 2) 1000 5000).2.2.1.num_active_events = 1 := by
  decide

/-- C1 counterexample: a ratio-2 gap (period 2000 after 1000) on a 36-1
decoder with sync_point_tooth 0 synchronizes the decoder, but the tooth
count right after the call is 1, not sync_point_tooth: the validation
block runs the per-tooth callback for tooth 0 and increments the count
within the same call. -/
theorem trigger_gap_tooth_count_incremented :
    (trigger_decoder_process_tooth trig_gap_decoder 3000).1.sync_locked = true ∧
    trig_gap_decoder.sync_point_tooth = 0 ∧
    (trigger_decoder_process_tooth trig_gap_decoder 3000).1.tooth_count ≠
      trig_gap_decoder.sync_point_tooth := by
  have hsub : u32sub 3000 1000 = 2000 := by decide
  refine ⟨?_, rfl, ?_⟩ <;>
    norm_num [trigger_decoder_process_tooth, trigger_gap_check,
      trigger_count_check, trig_gap_decoder, hsub, u32]

/-- C1 (amended): a call of `trigger_decoder_process_tooth` that
observes a gap whose period ratio lies within
[sync_ratio_from, sync_ratio_to] leaves the decoder synchronized and
increments sync_count, fires the sync callback on first acquisition,
and runs the tooth callback with `sync_point_tooth` — after which
tooth_count is `sync_point_tooth + 1`, not `sync_point_tooth`
(assuming the 36-1-style configuration invariant
sync_point_tooth < total_teeth ≤ 255). -/
theorem trigger_gap_sync_state (d : trigger_decoder_t) (ts p : ℕ)
    (hp : u32sub ts d.prev_tooth_time = p)
    (h1 : d.prev_tooth_time ≠ 0) (h2 : 100 ≤ p)
    (h3 : 0 < d.prev_tooth_period)
    (h4 : d.sync_ratio_from ≤ (p : ℚ) / (d.prev_tooth_period : ℚ))
    (h5 : (p : ℚ) / (d.prev_tooth_period : ℚ) ≤ d.sync_ratio_to)
    (h6 : d.sync_point_tooth < d.total_teeth) (h7 : d.total_teeth ≤ 255) :
    (trigger_decoder_process_tooth d ts).1.sync_locked = true ∧
    (trigger_decoder_process_tooth d ts).1.tooth_count = d.sync_point_tooth + 1 ∧
    (trigger_decoder_process_tooth d ts).1.sync_count = u32 (d.sync_count + 1) ∧
    (d.sync_locked = false →
      (trigger_decoder_process_tooth d ts).2.fired_sync = d.has_sync_callback) ∧
    (trigger_decoder_process_tooth d ts).2.tooth_cb =
      (if d.has_tooth_callback then some d.sync_point_tooth else none) := by
  have h2' : ¬ p < 100 := by omega
  have h6' : ¬ d.total_teeth ≤ d.sync_point_tooth := by omega
  have hmod : (d.sync_point_tooth + 1) % 256 = d.sync_point_tooth + 1 :=
    Nat.mod_eq_of_lt (by omega)
  cases hsl : d.sync_locked with
  | false =>
    simp [trigger_decoder_process_tooth, trigger_gap_check, trigger_count_check,
      hp, h1, h2', h3, h4, h5, h6', hmod, hsl]
  | true =>
    simp [trigger_decoder_process_tooth, trigger_gap_check, trigger_count_check,
      hp, h1, h2', h3, h4, h5, h6', hmod, hsl]

/-- C1 witness: the amended theorem applied to the concrete 36-1 decoder
seeing a 2000 µs period after a 1000 µs one at timestamp 3000. -/
theorem trigger_gap_sync_state_witness :
    (trigger_decoder_process_tooth trig_gap_decoder 3000).1.sync_locked = true ∧
    (trigger_decoder_process_tooth trig_gap_decoder 3000).1.tooth_count =
      trig_gap_decoder.sync_point_tooth + 1 ∧
    (trigger_decoder_process_tooth trig_gap_decoder 3000).1.sync_count =
      u32 (trig_gap_decoder.sync_count + 1) ∧
    (trig_gap_decoder.sync_locked = false →
      (trigger_decoder_process_tooth trig_gap_decoder 3000).2.fired_sync =
        trig_gap_decoder.has_sync_callback) ∧
    (trigger_decoder_process_tooth trig_gap_decoder 3000).2.tooth_cb =
      (if trig_gap_decoder.has_tooth_callback then
        some trig_gap_decoder.sync_point_tooth else none) :=
  trigger_gap_sync_state trig_gap_decoder 3000 2000 (by decide) (by decide)
    (by decide) (by decide) (by norm_num [trig_gap_decoder])
    (by norm_num [trig_gap_decoder]) (by decide) (by decide)

theorem fuel_clamp_floor_mem (x : ℚ) :
    500 ≤ Int.toNat ⌊if 20000 < (if x < 500 then (500:ℚ) else x) then (20000:ℚ)
            else if x < 500 then (500:ℚ) else x⌋ ∧
    Int.toNat ⌊if 20000 < (if x < 500 then (500:ℚ) else x) then (20000:ℚ)
            else if x < 500 then (500:ℚ) else x⌋ ≤ 20000 := by
  have h5 : (500:ℚ) ≤ if x < 500 then (500:ℚ) else x := by
    split_ifs with h
    · linarith
    · linarith [not_lt.mp h]
  by_cases h2 : 20000 < (if x < 500 then (500:ℚ) else x)
  · rw [if_pos h2]
    norm_num
  · rw [if_neg h2]
    have hub : (if x < 500 then (500:ℚ) else x) ≤ 20000 := le_of_not_lt h2
    have hf1 : (500:ℤ) ≤ ⌊if x < 500 then (500:ℚ) else x⌋ := by
      rw [Int.le_floor]
      exact_mod_cast h5
    have hf2 : ⌊if x < 500 then (500:ℚ) else x⌋ ≤ 20000 := by
      have := Int.floor_le_floor hub
      norm_num at this
      exact this
    constructor <;> omega

/-- C2 counterexample: an ECU state whose engine-running flag is false
makes `calculate_fuel_pulse` return 0, outside the claimed [500, 20000]
range, so the claim is false for arbitrary ECU states. -/
theorem fuel_pulse_zero_when_not_running :
    (calculate_fuel_pulse ecu_stopped).1 = 0 ∧
    (calculate_fuel_pulse ecu_stopped).1 < 500 := by
  decide

/-- C2 (amended): for every ECU state in which the engine is reported
running, whatever the sensor values, table contents, corrections and
wall-wetting state, the pulse width returned by `calculate_fuel_pulse`
lies within [500, 20000] µs. -/
theorem fuel_pulse_clamped_when_running (ecu : ecu_state_t)
    (h : ecu.sensors.engine_running = true) :
    500 ≤ (calculate_fuel_pulse ecu).1 ∧ (calculate_fuel_pulse ecu).1 ≤ 20000 := by
  unfold calculate_fuel_pulse
  simp only [h, if_true]
  exact fuel_clamp_floor_mem _

/-- C2 witness: the amended theorem applied to a concrete running ECU
state. -/
theorem fuel_pulse_clamped_when_running_witness :
    500 ≤ (calculate_fuel_pulse ecu_running).1 ∧
    (calculate_fuel_pulse ecu_running).1 ≤ 20000 :=
  fuel_pulse_clamped_when_running ecu_running rfl

theorem update_wall_wetting_eq_of_coeffs (ww : wall_wetting_t) (dq mk dt : ℚ)
    (hα : ww.alpha = 0 ∨ 1/100 ≤ ww.alpha)
    (hβ : ww.beta = 0 ∨ (1/100 ≤ ww.beta ∧ ww.beta < 99/100)) :
    update_wall_wetting ww dq mk dt =
      (max 0 ((dq - (1 - ww.alpha) * ww.fuel_film_mass) / (1 - ww.beta)),
       { ww with
         fuel_film_mass := max 0 (ww.alpha * ww.fuel_film_mass +
           ww.beta * ((dq - (1 - ww.alpha) * ww.fuel_film_mass) / (1 - ww.beta))),
         prev_map_kpa := mk }) := by
  have ha : (if ww.alpha < 1/100 then (0:ℚ) else ww.alpha) = ww.alpha := by
    rcases hα with h | h
    · rw [h]; norm_num
    · rw [if_neg (by linarith)]
  have hb : (if ww.beta < 1/100 then (0:ℚ) else ww.beta) = ww.beta := by
    rcases hβ with h | h
    · rw [h]; norm_num
    · rw [if_neg (by linarith [h.1])]
  have hblt : ww.beta < 99/100 := by
    rcases hβ with h | h
    · rw [h]; norm_num
    · exact h.2
  have hmax : ∀ x : ℚ, (if x < 0 then (0:ℚ) else x) = max 0 x := by
    intro x; split_ifs with h
    · exact (max_eq_left h.le).symm
    · exact (max_eq_right (not_lt.mp h)).symm
  simp only [update_wall_wetting, ha, hb, hblt, if_true, hmax]

theorem affine_clamped_contraction (a b dq f : ℚ)
    (ha0 : 0 ≤ a) (ha1 : a < 1) (hb0 : 0 ≤ b) (hb1 : b < 99/100)
    (hD : 0 ≤ dq) :
    |max 0 (a * f + b * ((dq - (1 - a) * f) / (1 - b))) - b * dq / (1 - a)| ≤
      |(a - b) / (1 - b)| * |f - b * dq / (1 - a)| := by
  have hb' : (0:ℚ) < 1 - b := by linarith
  have ha' : (0:ℚ) < 1 - a := by linarith
  have hF0 : 0 ≤ b * dq / (1 - a) := div_nonneg (mul_nonneg hb0 hD) ha'.le
  have key : a * f + b * ((dq - (1 - a) * f) / (1 - b)) - b * dq / (1 - a) =
      (a - b) / (1 - b) * (f - b * dq / (1 - a)) := by
    field_simp
    ring
  rcases le_or_lt 0 (a * f + b * ((dq - (1 - a) * f) / (1 - b))) with hpos | hneg
  · rw [max_eq_right hpos, key, abs_mul]
  · rw [max_eq_left hneg.le, zero_sub, abs_neg, abs_of_nonneg hF0]
    calc b * dq / (1 - a)
        ≤ b * dq / (1 - a) - (a * f + b * ((dq - (1 - a) * f) / (1 - b))) := by linarith
      _ = -(a * f + b * ((dq - (1 - a) * f) / (1 - b)) - b * dq / (1 - a)) := by ring
      _ ≤ |a * f + b * ((dq - (1 - a) * f) / (1 - b)) - b * dq / (1 - a)| := neg_le_abs _
      _ = |(a - b) / (1 - b) * (f - b * dq / (1 - a))| := by rw [key]
      _ = |(a - b) / (1 - b)| * |f - b * dq / (1 - a)| := abs_mul _ _

theorem affine_slope_abs_lt_one (a b : ℚ) (ha1 : a < 1) (hb1 : b < 99/100)
    (hslope : 2 * b - 1 < a) : |(a - b) / (1 - b)| < 1 := by
  have hb' : (0:ℚ) < 1 - b := by linarith
  rw [abs_div, abs_of_pos hb', div_lt_one hb', abs_lt]
  constructor <;> linarith

theorem clamped_cmd_dist (a b dq f : ℚ)
    (ha1 : a < 1) (hb1 : b < 99/100) (hD : 0 ≤ dq) :
    |max 0 ((dq - (1 - a) * f) / (1 - b)) - dq| ≤
      (1 - a) / (1 - b) * |f - b * dq / (1 - a)| := by
  have hb' : (0:ℚ) < 1 - b := by linarith
  have ha' : (0:ℚ) < 1 - a := by linarith
  have key : (dq - (1 - a) * f) / (1 - b) - dq =
      -((1 - a) / (1 - b)) * (f - b * dq / (1 - a)) := by
    field_simp
    ring
  have habs : |(dq - (1 - a) * f) / (1 - b) - dq| =
      (1 - a) / (1 - b) * |f - b * dq / (1 - a)| := by
    rw [key, abs_mul, abs_neg, abs_of_pos (div_pos ha' hb')]
  rcases le_or_lt 0 ((dq - (1 - a) * f) / (1 - b)) with hpos | hneg
  · rw [max_eq_right hpos]
    exact habs.le
  · rw [max_eq_left hneg.le, zero_sub, abs_neg, abs_of_nonneg hD]
    calc dq ≤ dq - (dq - (1 - a) * f) / (1 - b) := by linarith
      _ = -((dq - (1 - a) * f) / (1 - b) - dq) := by ring
      _ ≤ |(dq - (1 - a) * f) / (1 - b) - dq| := neg_le_abs _
      _ = (1 - a) / (1 - b) * |f - b * dq / (1 - a)| := habs

theorem ww_osc_step_one :
    wwIter ww_oscillating 1 100 10 1 =
      { tau := 100, alpha := 0, beta := 9/10, fuel_film_mass := 9,
        prev_map_kpa := 100 } := by
  show (update_wall_wetting ww_oscillating 1 100 10).2 = _
  norm_num [update_wall_wetting, ww_oscillating]

theorem ww_osc_step_two : wwIter ww_oscillating 1 100 10 2 = ww_oscillating := by
  show (update_wall_wetting (wwIter ww_oscillating 1 100 10 1) 1 100 10).2 = _
  rw [ww_osc_step_one]
  norm_num [update_wall_wetting, ww_oscillating]

theorem ww_osc_periodic (n : ℕ) :
    wwIter ww_oscillating 1 100 10 (n + 2) = wwIter ww_oscillating 1 100 10 n := by
  induction n with
  | zero => exact ww_osc_step_two
  | succ k ih =>
    show (update_wall_wetting (wwIter ww_oscillating 1 100 10 (k + 2)) 1 100 10).2 =
      wwIter ww_oscillating 1 100 10 (k + 1)
    rw [ih]
    rfl

theorem ww_osc_even (n : ℕ) : wwIter ww_oscillating 1 100 10 (2 * n) = ww_oscillating := by
  induction n with
  | zero => rfl
  | succ k ih =>
    have h : 2 * (k + 1) = 2 * k + 2 := by ring
    rw [h, ww_osc_periodic, ih]

/-- C6 counterexample: with alpha = 0 and beta = 0.9 (both below 1) and
constant desired mass 1 from film 0, the film iteration oscillates
0, 9, 0, 9, … and does not converge to the claimed fixed point
F* = beta*D/(1-alpha) = 0.9, so the claimed convergence for all
alpha, beta < 1 is false. -/
theorem wall_wetting_no_convergence :
    ww_oscillating.alpha < 1 ∧ ww_oscillating.beta < 1 ∧
    ¬ Filter.Tendsto
      (fun n => ((wwIter ww_oscillating 1 100 10 n).fuel_film_mass : ℝ))
      Filter.atTop
      (nhds ((ww_oscillating.beta * 1 / (1 - ww_oscillating.alpha) : ℚ) : ℝ)) := by
  refine ⟨by norm_num [ww_oscillating], by norm_num [ww_oscillating], ?_⟩
  intro h
  have h2 : Filter.Tendsto (fun n : ℕ => 2 * n) Filter.atTop Filter.atTop :=
    Filter.tendsto_atTop_atTop.mpr (fun bnd => ⟨bnd, fun a ha => by omega⟩)
  have h3 := h.comp h2
  have h4 : ((fun n => ((wwIter ww_oscillating 1 100 10 n).fuel_film_mass : ℝ)) ∘
      (fun n : ℕ => 2 * n)) = fun _ => (0 : ℝ) := by
    funext n
    show ((wwIter ww_oscillating 1 100 10 (2 * n)).fuel_film_mass : ℝ) = 0
    rw [ww_osc_even n]
    norm_num [ww_oscillating]
  rw [h4] at h3
  have h5 := tendsto_nhds_unique h3 tendsto_const_nhds
  norm_num [ww_oscillating] at h5

theorem rat_seq_tendsto_of_abs_le_geo (f : ℕ → ℚ) (L r C : ℚ)
    (hr0 : 0 ≤ r) (hr1 : r < 1)
    (h : ∀ n, |f n - L| ≤ r ^ n * C) :
    Filter.Tendsto (fun n => ((f n : ℚ) : ℝ)) Filter.atTop (nhds ((L : ℚ) : ℝ)) := by
  have hgeo : Filter.Tendsto (fun n => ((r : ℝ)) ^ n * ((C : ℝ)))
      Filter.atTop (nhds 0) := by
    have h1 : Filter.Tendsto (fun n => ((r : ℝ)) ^ n) Filter.atTop (nhds 0) :=
      tendsto_pow_atTop_nhds_zero_of_lt_one (by exact_mod_cast hr0)
        (by exact_mod_cast hr1)
    simpa using h1.mul_const ((C : ℝ))
  have hlow : Filter.Tendsto (fun n => ((L : ℝ)) - ((r : ℝ)) ^ n * ((C : ℝ)))
      Filter.atTop (nhds ((L : ℚ) : ℝ)) := by
    simpa using tendsto_const_nhds.sub hgeo
  have hhigh : Filter.Tendsto (fun n => ((L : ℝ)) + ((r : ℝ)) ^ n * ((C : ℝ)))
      Filter.atTop (nhds ((L : ℚ) : ℝ)) := by
    simpa using tendsto_const_nhds.add hgeo
  refine tendsto_of_tendsto_of_tendsto_of_le_of_le hlow hhigh ?_ ?_
  · intro n
    have h2 : (L - r ^ n * C : ℚ) ≤ f n := by
      have := (abs_le.mp (h n)).1
      linarith
    have h3 : ((L - r ^ n * C : ℚ) : ℝ) ≤ ((f n : ℚ) : ℝ) := by exact_mod_cast h2
    push_cast at h3
    exact h3
  · intro n
    have h2 : f n ≤ (L + r ^ n * C : ℚ) := by
      have := (abs_le.mp (h n)).2
      linarith
    have h3 : ((f n : ℚ) : ℝ) ≤ ((L + r ^ n * C : ℚ) : ℝ) := by exact_mod_cast h2
    push_cast at h3
    exact h3

/-- C6 (amended): for constant desired fuel mass D ≥ 0 applied on every
cycle with coefficients alpha < 1 and beta < 0.99 that are each either 0
or at least 0.01 (the code zeroes smaller ones) and with
alpha > 2*beta − 1 (the affine film map's slope (alpha−beta)/(1−beta)
must exceed −1), each step of `update_wall_wetting` computes
commanded = (desired − (1−alpha)·film)/(1−beta), updates
film = alpha·film + beta·commanded with both outputs clamped at 0, and
iterating it makes film_mass converge to F* = beta·D/(1−alpha) and the
returned commanded mass converge to D. -/
theorem wall_wetting_converges (ww0 : wall_wetting_t) (dq mk dt : ℚ)
    (hα : ww0.alpha = 0 ∨ 1/100 ≤ ww0.alpha)
    (hα1 : ww0.alpha < 1)
    (hβ : ww0.beta = 0 ∨ (1/100 ≤ ww0.beta ∧ ww0.beta < 99/100))
    (hslope : 2 * ww0.beta - 1 < ww0.alpha)
    (hD : 0 ≤ dq) :
    (∀ ww : wall_wetting_t, ww.alpha = ww0.alpha → ww.beta = ww0.beta →
      update_wall_wetting ww dq mk dt =
        (max 0 ((dq - (1 - ww.alpha) * ww.fuel_film_mass) / (1 - ww.beta)),
         { ww with
           fuel_film_mass := max 0 (ww.alpha * ww.fuel_film_mass +
             ww.beta * ((dq - (1 - ww.alpha) * ww.fuel_film_mass) / (1 - ww.beta))),
           prev_map_kpa := mk })) ∧
    Filter.Tendsto (fun n => ((wwIter ww0 dq mk dt n).fuel_film_mass : ℝ))
      Filter.atTop (nhds ((ww0.beta * dq / (1 - ww0.alpha) : ℚ) : ℝ)) ∧
    Filter.Tendsto (fun n => ((wwCmd ww0 dq mk dt n : ℚ) : ℝ))
      Filter.atTop (nhds ((dq : ℚ) : ℝ)) := by
  have ha0 : 0 ≤ ww0.alpha := by
    rcases hα with h | h
    · rw [h]
    · linarith
  have hb0 : 0 ≤ ww0.beta := by
    rcases hβ with h | h
    · rw [h]
    · linarith [h.1]
  have hb99 : ww0.beta < 99/100 := by
    rcases hβ with h | h
    · rw [h]; norm_num
    · exact h.2
  have hstep_eq : ∀ ww : wall_wetting_t, ww.alpha = ww0.alpha → ww.beta = ww0.beta →
      update_wall_wetting ww dq mk dt =
        (max 0 ((dq - (1 - ww.alpha) * ww.fuel_film_mass) / (1 - ww.beta)),
         { ww with
           fuel_film_mass := max 0 (ww.alpha * ww.fuel_film_mass +
             ww.beta * ((dq - (1 - ww.alpha) * ww.fuel_film_mass) / (1 - ww.beta))),
           prev_map_kpa := mk }) := by
    intro ww h1 h2
    exact update_wall_wetting_eq_of_coeffs ww dq mk dt
      (by rw [h1]; exact hα) (by rw [h2]; exact hβ)
  have hab : ∀ n, (wwIter ww0 dq mk dt n).alpha = ww0.alpha ∧
      (wwIter ww0 dq mk dt n).beta = ww0.beta := by
    intro n
    induction n with
    | zero => exact ⟨rfl, rfl⟩
    | succ k ih =>
      have h := hstep_eq _ ih.1 ih.2
      constructor
      · show (update_wall_wetting (wwIter ww0 dq mk dt k) dq mk dt).2.alpha = _
        rw [h]
        exact ih.1
      · show (update_wall_wetting (wwIter ww0 dq mk dt k) dq mk dt).2.beta = _
        rw [h]
        exact ih.2
  have hfilm_step : ∀ n, (wwIter ww0 dq mk dt (n + 1)).fuel_film_mass =
      max 0 (ww0.alpha * (wwIter ww0 dq mk dt n).fuel_film_mass +
        ww0.beta * ((dq - (1 - ww0.alpha) * (wwIter ww0 dq mk dt n).fuel_film_mass) /
          (1 - ww0.beta))) := by
    intro n
    have h := hstep_eq _ (hab n).1 (hab n).2
    show (update_wall_wetting (wwIter ww0 dq mk dt n) dq mk dt).2.fuel_film_mass = _
    rw [h, (hab n).1, (hab n).2]
  have hcmd_step : ∀ n, wwCmd ww0 dq mk dt n =
      max 0 ((dq - (1 - ww0.alpha) * (wwIter ww0 dq mk dt n).fuel_film_mass) /
        (1 - ww0.beta)) := by
    intro n
    have h := hstep_eq _ (hab n).1 (hab n).2
    show (update_wall_wetting (wwIter ww0 dq mk dt n) dq mk dt).1 = _
    rw [h, (hab n).1, (hab n).2]
  have hdecay : ∀ n, |(wwIter ww0 dq mk dt n).fuel_film_mass -
      ww0.beta * dq / (1 - ww0.alpha)| ≤
      |(ww0.alpha - ww0.beta) / (1 - ww0.beta)| ^ n *
        |ww0.fuel_film_mass - ww0.beta * dq / (1 - ww0.alpha)| := by
    intro n
    induction n with
    | zero => simp [wwIter]
    | succ k ih =>
      rw [hfilm_step k]
      calc |max 0 (ww0.alpha * (wwIter ww0 dq mk dt k).fuel_film_mass +
              ww0.beta * ((dq - (1 - ww0.alpha) * (wwIter ww0 dq mk dt k).fuel_film_mass) /
                (1 - ww0.beta))) - ww0.beta * dq / (1 - ww0.alpha)|
          ≤ |(ww0.alpha - ww0.beta) / (1 - ww0.beta)| *
              |(wwIter ww0 dq mk dt k).fuel_film_mass -
                ww0.beta * dq / (1 - ww0.alpha)| :=
            affine_clamped_contraction ww0.alpha ww0.beta dq _ ha0 hα1 hb0 hb99 hD
        _ ≤ |(ww0.alpha - ww0.beta) / (1 - ww0.beta)| *
              (|(ww0.alpha - ww0.beta) / (1 - ww0.beta)| ^ k *
                |ww0.fuel_film_mass - ww0.beta * dq / (1 - ww0.alpha)|) :=
            mul_le_mul_of_nonneg_left ih (abs_nonneg _)
        _ = |(ww0.alpha - ww0.beta) / (1 - ww0.beta)| ^ (k + 1) *
              |ww0.fuel_film_mass - ww0.beta * dq / (1 - ww0.alpha)| := by
            rw [pow_succ]; ring
  have hr1 : |(ww0.alpha - ww0.beta) / (1 - ww0.beta)| < 1 :=
    affine_slope_abs_lt_one ww0.alpha ww0.beta hα1 hb99 hslope
  refine ⟨hstep_eq, ?_, ?_⟩
  · exact rat_seq_tendsto_of_abs_le_geo _ _ _ _ (abs_nonneg _) hr1 hdecay
  · have hcmd_decay : ∀ n, |wwCmd ww0 dq mk dt n - dq| ≤
        |(ww0.alpha - ww0.beta) / (1 - ww0.beta)| ^ n *
          ((1 - ww0.alpha) / (1 - ww0.beta) *
            |ww0.fuel_film_mass - ww0.beta * dq / (1 - ww0.alpha)|) := by
      intro n
      rw [hcmd_step n]
      calc |max 0 ((dq - (1 - ww0.alpha) * (wwIter ww0 dq mk dt n).fuel_film_mass) /
              (1 - ww0.beta)) - dq|
          ≤ (1 - ww0.alpha) / (1 - ww0.beta) *
              |(wwIter ww0 dq mk dt n).fuel_film_mass -
                ww0.beta * dq / (1 - ww0.alpha)| :=
            clamped_cmd_dist ww0.alpha ww0.beta dq _ hα1 hb99 hD
        _ ≤ (1 - ww0.alpha) / (1 - ww0.beta) *
              (|(ww0.alpha - ww0.beta) / (1 - ww0.beta)| ^ n *
                |ww0.fuel_film_mass - ww0.beta * dq / (1 - ww0.alpha)|) := by
            refine mul_le_mul_of_nonneg_left (hdecay n) ?_
            have h1 : (0:ℚ) < 1 - ww0.alpha := by linarith
            have h2 : (0:ℚ) < 1 - ww0.beta := by linarith
            positivity
        _ = |(ww0.alpha - ww0.beta) / (1 - ww0.beta)| ^ n *
              ((1 - ww0.alpha) / (1 - ww0.beta) *
                |ww0.fuel_film_mass - ww0.beta * dq / (1 - ww0.alpha)|) := by ring
    exact rat_seq_tendsto_of_abs_le_geo _ _ _ _ (abs_nonneg _) hr1 hcmd_decay

/-- C6 witness: the amended theorem applied to the default coefficients
alpha = 0.95, beta = 0.5 from `ecu_init` with desired mass 1. -/
theorem wall_wetting_converges_witness :
    (∀ ww : wall_wetting_t, ww.alpha = ww_default.alpha → ww.beta = ww_default.beta →
      update_wall_wetting ww 1 100 10 =
        (max 0 ((1 - (1 - ww.alpha) * ww.fuel_film_mass) / (1 - ww.beta)),
         { ww with
           fuel_film_mass := max 0 (ww.alpha * ww.fuel_film_mass +
             ww.beta * ((1 - (1 - ww.alpha) * ww.fuel_film_mass) / (1 - ww.beta))),
           prev_map_kpa := 100 })) ∧
    Filter.Tendsto (fun n => ((wwIter ww_default 1 100 10 n).fuel_film_mass : ℝ))
      Filter.atTop (nhds ((ww_default.beta * 1 / (1 - ww_default.alpha) : ℚ) : ℝ)) ∧
    Filter.Tendsto (fun n => ((wwCmd ww_default 1 100 10 n : ℚ) : ℝ))
      Filter.atTop (nhds (((1 : ℚ) : ℝ))) :=
  wall_wetting_converges ww_default 1 100 10
    (Or.inr (by norm_num [ww_default])) (by norm_num [ww_default])
    (Or.inr (by norm_num [ww_default])) (by norm_num [ww_default]) (by norm_num)
